import Mathlib

/-!
Verification development for the Thonny AI inline-completion plugin.
Python strings are embedded as `List Char`; each definition mirrors one
Python function of the repository (file and function named in its doc
comment).  Whitespace is modelled as the ASCII set space/tab/newline/CR,
and character classes (`isalpha`, `isalnum`, identifier characters) as
their ASCII fragments, which is exact for all inputs considered here.
-/

abbrev Str := List Char

/-- Python whitespace test, restricted to the characters that occur in code. -/
def isWsChar (c : Char) : Bool := c == ' ' || c == '\t' || c == '\n' || c == '\r'

/-- Python `str.lstrip()`. -/
def pyLstrip (s : Str) : Str := s.dropWhile isWsChar

/-- Python `str.rstrip()`. -/
def pyRstrip (s : Str) : Str := (s.reverse.dropWhile isWsChar).reverse

/-- Python `str.strip()`. -/
def pyStrip (s : Str) : Str := pyRstrip (pyLstrip s)

/-- Python `str.lower()` (ASCII). -/
def strToLower (s : Str) : Str := s.map Char.toLower

/-- Python `s.split('\n')`: always returns at least one piece. -/
def splitNl : Str → List Str
  | [] => [[]]
  | c :: t =>
    if c == '\n' then [] :: splitNl t
    else
      match splitNl t with
      | [] => [[c]]
      | l :: ls => (c :: l) :: ls

/-- Python `'\n'.join(ls)`. -/
def joinNl : List Str → Str
  | [] => []
  | l :: ls =>
    match ls with
    | [] => l
    | _ => l ++ '\n' :: joinNl ls

/-- Python `needle in hay` (substring containment). -/
def isSubstr (n : Str) : Str → Bool
  | [] => n.isEmpty
  | h :: t => n.isPrefixOf (h :: t) || isSubstr n t

/-- Python `hay.find(needle)` restricted to the found case (`none` = -1). -/
def findSub (n : Str) : Str → Option Nat
  | [] => if n.isEmpty then some 0 else none
  | h :: t => if n.isPrefixOf (h :: t) then some 0 else (findSub n t).map (· + 1)

/-- Count of positions at which `n` occurs in the string. -/
def countOcc (n : Str) : Str → Nat
  | [] => 0
  | h :: t => (if n.isPrefixOf (h :: t) then 1 else 0) + countOcc n t

/-- Regex `[a-zA-Z_]`. -/
def isIdentStart (c : Char) : Bool := c.isAlpha || c == '_'

/-- Regex `[a-zA-Z0-9_]`. -/
def isIdentChar (c : Char) : Bool := c.isAlphanum || c == '_'

/-- One anchored attempt of the regex `kw\s+([a-zA-Z_][a-zA-Z0-9_]*)`. -/
def tryKwAt (kw : Str) (s : Str) : Option Str :=
  if kw.isPrefixOf s then
    let rest := s.drop kw.length
    if rest.takeWhile isWsChar ≠ [] then
      match rest.dropWhile isWsChar with
      | c :: t => if isIdentStart c then some (c :: t.takeWhile isIdentChar) else none
      | [] => none
    else none
  else none

/-- Python `re.search(r'kw\s+([a-zA-Z_][a-zA-Z0-9_]*)', s)`, returning group 1. -/
def reNameAfterKw (kw : Str) : Str → Option Str
  | [] => none
  | c :: t =>
    match tryKwAt kw (c :: t) with
    | some nm => some nm
    | none => reNameAfterKw kw t

/-- One anchored attempt of the regex `([a-zA-Z_][a-zA-Z0-9_]*)\([^)]*\):`. -/
def tryCallAt : Str → Option Str
  | [] => none
  | c :: t =>
    if isIdentStart c then
      let nm : Str := c :: t.takeWhile isIdentChar
      match (c :: t).drop nm.length with
      | '(' :: r3 =>
        match r3.drop (r3.takeWhile (fun ch => ch != ')')).length with
        | ')' :: ':' :: _ => some nm
        | _ => none
      | _ => none
    else none

/-- Python `re.search(r'([a-zA-Z_][a-zA-Z0-9_]*)\([^)]*\):', s)`, group 1. -/
def reCallName : Str → Option Str
  | [] => none
  | c :: t =>
    match tryCallAt (c :: t) with
    | some nm => some nm
    | none => reCallName t

/-- Python `s.rstrip(':')`. -/
def rstripColon (s : Str) : Str := (s.reverse.dropWhile (fun c => c == ':')).reverse

/-!
## `GhostText._remove_overlap` (src/thonnycontrib/ai_completion/main.py, lines 232-279)
-/

/-- Strategy 1 loop of `_remove_overlap`: Python
`for overlap_len in range(min(len(suggestion), len(suffix_clean)), 0, -1)`,
returning the trimmed suggestion on the first (longest) end-overlap whose
remainder is not all whitespace, and breaking out (`none`) when the remainder
is all whitespace. -/
def overlapStrat1 : Nat → Str → Str → Option Str
  | 0, _, _ => none
  | k + 1, s, sc =>
    if (sc.take (k + 1)).isSuffixOf s then
      let t := s.take (s.length - (k + 1))
      if pyStrip t ≠ [] then some t else none
    else overlapStrat1 k s sc

/-- Strategy 2 search of `_remove_overlap`: Python
`for i in range(len(suggestion_lines) - 1, -1, -1)`, the greatest line index
whose stripped form equals the stripped first suffix line. -/
def overlapStrat2Find (sl : List Str) (fs : Str) : Nat → Option Nat
  | 0 => none
  | i + 1 => if pyStrip (sl.getD i []) == fs then some i else overlapStrat2Find sl fs i

/-- Strategy 2 of `_remove_overlap`: trim the suggestion at the last line that
duplicates the first suffix line, with the source's break/guard structure. -/
def overlapStrat2 (s sc : Str) : Str :=
  let sl := splitNl s
  match splitNl sc with
  | [] => s
  | f0 :: _ =>
    if pyStrip f0 = [] then s
    else
      match overlapStrat2Find sl (pyStrip f0) sl.length with
      | none => s
      | some i =>
        let trimmed := sl.take i
        if trimmed ≠ [] then
          let result := joinNl trimmed
          if pyStrip result ≠ [] then
            if pyStrip (sl.getD (i - 1) []) ≠ [] then result ++ ['\n'] else result
          else s
        else s

/-- `GhostText._remove_overlap(suggestion, suffix)` (main.py:232-279): trims the
suggestion's tail when it duplicates the start of the code after the cursor. -/
def remove_overlap (suggestion sfx : Str) : Str :=
  if suggestion = [] || sfx = [] then suggestion
  else
    let suffix_clean := pyLstrip (sfx.take 500)
    if suffix_clean = [] then suggestion
    else
      match overlapStrat1 (min suggestion.length suffix_clean.length) suggestion suffix_clean with
      | some t => t
      | none => overlapStrat2 suggestion suffix_clean

/-- Modelled from the spec: `x` is an affix of `s` (a prefix or a suffix). -/
def isAffixOf (x s : Str) : Bool := x.isPrefixOf s || x.isSuffixOf s

/-- Modelled from the spec: no nonempty suffix of `pre` and no nonempty prefix
of `suf` matches any affix of `s` (the claim C4 precondition). -/
def noAffixOverlap (s pre suf : Str) : Bool :=
  ((List.range pre.length).all fun k => !(isAffixOf (pre.drop k) s)) &&
  ((List.range suf.length).all fun k => !(isAffixOf (suf.take (k + 1)) s))

/-!
## `AIClient._clean_completion` (src/thonnycontrib/ai_completion/ai_client.py, lines 720-989)
-/

/-- The statement keywords recognised as code starts in step 1 of the cleanup. -/
def step1CodeKws : List Str :=
  ["def ", "class ", "if ", "for ", "while ", "return ", "import ", "from "].map String.data

/-- The punctuation characters recognised as code starts in step 1
(Python `stripped[0] in '()[]{}#\'"'`). -/
def step1PunctChars : Str := ['(', ')', '[', ']', '\x7b', '\x7d', '#', '\x27', '\x22']

/-- Step 1 scan of `_clean_completion`: walk the lines with the
`in_block` toggle, keeping fenced lines and code-looking unfenced lines. -/
def cleanStep1Scan : List Str → Bool → List Str
  | [], _ => []
  | l :: ls, inb =>
    let st := pyStrip l
    if "```".data.isPrefixOf st then cleanStep1Scan ls (!inb)
    else if inb then l :: cleanStep1Scan ls inb
    else if !(["```".data, "Here".data, "This".data, "The ".data].any (·.isPrefixOf st)) then
      if st ≠ [] &&
          ((match st with | c :: _ => step1PunctChars.contains c | [] => false) ||
            step1CodeKws.any (·.isPrefixOf st)) then
        l :: cleanStep1Scan ls inb
      else cleanStep1Scan ls inb
    else cleanStep1Scan ls inb

/-- Step 1 of `_clean_completion`: strip Markdown fences. -/
def cleanStep1 (text : Str) : Str :=
  if isSubstr "```".data text then
    let cl := cleanStep1Scan (splitNl text) false
    if cl ≠ [] then joinNl cl else text
  else text

/-- The code-start tokens of step 2 of the cleanup
(Python `stripped.startswith(('def ', 'class ', ...))`). -/
def step2CodeTokens : List Str :=
  ["def ", "class ", "if ", "for ", "while ", "return ", "import ", "from ", "try",
    "with ", "elif ", "else:", "except", "finally:", "async ", "self.", "print(",
    "raise ", "yield ", "pass", "    ", "\t"].map String.data

/-- The punctuation starts of step 2 (Python
`stripped.startswith(('(', ')', '[', ']', '{', '}', ':', '#', '"', "'"))`). -/
def step2PunctChars : Str := ['(', ')', '[', ']', '\x7b', '\x7d', ':', '#', '\x22', '\x27']

/-- The prose markers of step 2 (substring match on the lowered line). -/
def step2ProseMarkers : List Str :=
  ["here", "this is", "the code", "complete", "output:", "result:", "answer:",
    "following"].map String.data

/-- Step 2 scan of `_clean_completion`: drop leading explanatory prose lines
until a code-looking line is found (the `skip_until_code` flag). -/
def cleanStep2Scan : List Str → Bool → List Str
  | [], _ => []
  | l :: ls, skip =>
    if skip then
      let st := pyStrip l
      if (match st with | c :: _ => step2PunctChars.contains c | [] => false) ||
          step2CodeTokens.any (·.isPrefixOf st) ||
          (st ≠ [] && (st.headD ' ').isAlpha && isSubstr "=".data st) then
        l :: cleanStep2Scan ls false
      else if step2ProseMarkers.any (fun x => isSubstr x (strToLower st)) then
        cleanStep2Scan ls true
      else l :: cleanStep2Scan ls false
    else l :: cleanStep2Scan ls false

/-- Step 2 of `_clean_completion`. -/
def cleanStep2 (text : Str) : Str := pyStrip (joinNl (cleanStep2Scan (splitNl text) true))

/-- The trailing prose markers of step 3. -/
def step3TrailMarkers : List Str :=
  ["this ", "note:", "explanation:", "the above"].map String.data

/-- Step 3 pop loop of `_clean_completion`, acting on the reversed line list:
drop trailing blank or explanatory lines. -/
def cleanStep3Pop : List Str → List Str
  | [] => []
  | l :: ls =>
    let last := strToLower (pyStrip l)
    if last = [] || step3TrailMarkers.any (·.isPrefixOf last) then cleanStep3Pop ls
    else l :: ls

/-- Step 3 of `_clean_completion`. -/
def cleanStep3 (result : Str) : Str :=
  joinNl (cleanStep3Pop (splitNl result).reverse).reverse

/-- The mid-line truncation of step 4: Python
`if 'def ' in stripped and not stripped.startswith('def '): line = line[:line.find('def ')]`. -/
def cleanStep4Trunc (l : Str) : Str :=
  let st := pyStrip l
  if isSubstr "def ".data st && !("def ".data.isPrefixOf st) then
    match findSub "def ".data l with
    | some p => l.take p
    | none => l
  else l

/-- Step 4 scan of `_clean_completion`: drop `def`/`class` header lines whose
name was already seen (Python `seen_definitions`; note the `continue` skips
only the header line itself, never the body below it). -/
def cleanStep4Scan : List Str → List Str → List Str
  | _, [] => []
  | seen, l :: ls =>
    let l1 := cleanStep4Trunc l
    let st := pyStrip l1
    if "def ".data.isPrefixOf st then
      match reNameAfterKw "def".data st with
      | some nm =>
        if seen.contains nm then cleanStep4Scan seen ls
        else l1 :: cleanStep4Scan (nm :: seen) ls
      | none => l1 :: cleanStep4Scan seen ls
    else if "class ".data.isPrefixOf st then
      match reNameAfterKw "class".data st with
      | some nm =>
        if seen.contains nm then cleanStep4Scan seen ls
        else l1 :: cleanStep4Scan (nm :: seen) ls
      | none => l1 :: cleanStep4Scan seen ls
    else l1 :: cleanStep4Scan seen ls

/-- Step 4 of `_clean_completion`: deduplicate `def`/`class` headers. -/
def cleanStep4 (result : Str) : Str := joinNl (cleanStep4Scan [] (splitNl result))

/-- Case-1 loop of step 5: the first line defines a function, keep lines until
a later `def` header (Python breaks on any matching header with `i > 0`). -/
def step5Case1Loop : List Str → Option Str → Nat → List Str
  | [], _, _ => []
  | l :: ls, ffn, i =>
    let st := pyStrip l
    if "def ".data.isPrefixOf st then
      match reNameAfterKw "def".data st with
      | some nm =>
        if (some nm == ffn) && i > 0 then []
        else if i > 0 then []
        else l :: step5Case1Loop ls ffn (i + 1)
      | none => l :: step5Case1Loop ls ffn (i + 1)
    else l :: step5Case1Loop ls ffn (i + 1)

/-- Case 1 of step 5 of `_clean_completion`. -/
def cleanStep5Case1 (lines : List Str) (firstLine : Str) (result : Str) : Str :=
  let keep := step5Case1Loop lines (reNameAfterKw "def".data firstLine) 0
  if keep ≠ [] then pyStrip (joinNl keep) else result

/-- The `'):'`-ending conversion of step 5 case 2: collapse a spurious
definition header to a one-line call with placeholder argument. -/
def step5CallCollapse (firstLine : Str) (line0 : Str) : Str :=
  if "):".data.isSuffixOf firstLine then
    match reCallName firstLine with
    | some nm => nm ++ "(10)".data
    | none => rstripColon line0
  else line0

/-- Case 2 of step 5 of `_clean_completion` (the first line looks like a call
of an existing function, a full definition follows). -/
def cleanStep5Case2 (lines : List Str) (firstLine : Str) (result : Str) : Str :=
  if (lines.drop 1).any (fun l => isSubstr "def ".data (pyStrip l)) then
    step5CallCollapse firstLine (lines.headD [])
  else
    match lines with
    | _ :: l1 :: _ =>
      let second := if l1 ≠ [] then pyStrip l1 else []
      if second ≠ [] && ("    ".data.isPrefixOf second || "\t".data.isPrefixOf second) then
        step5CallCollapse firstLine (lines.headD [])
      else result
    | _ => result

/-- Case 3 of step 5 of `_clean_completion`: a call on the first line followed
by definitions; keep only the lines before the first `def`. -/
def cleanStep5Case3 (lines : List Str) (firstLine : Str) (result : Str) : Str :=
  match lines.findIdx? (fun l => isSubstr "def ".data (pyStrip l)) with
  | some idx =>
    if idx > 0 && firstLine ≠ [] && !("def ".data.isPrefixOf firstLine) &&
        (")".data.isSuffixOf firstLine || isSubstr "(".data firstLine) then
      pyStrip (joinNl (lines.take idx))
    else result
  | none => result

/-- Case-4 scan of step 5: find the first `def` header index and, on a repeated
name, the index where the first definition ends (Python `first_def_start`,
`first_def_end`). -/
def step5Case4Scan : List Str → List Str → Nat → Option Nat → (Option Nat × Option Nat)
  | [], _, _, fds => (fds, none)
  | l :: ls, names, i, fds =>
    let st := pyStrip l
    if "def ".data.isPrefixOf st then
      match reNameAfterKw "def".data st with
      | some nm =>
        if names.contains nm then (fds, if fds.isSome then some i else none)
        else step5Case4Scan ls (names ++ [nm]) (i + 1) (if fds.isNone then some i else fds)
      | none => step5Case4Scan ls names (i + 1) fds
    else step5Case4Scan ls names (i + 1) fds

/-- Case 4 of step 5 of `_clean_completion`: when the first line is a `def`
header, keep the first complete definition up to a repeated header. -/
def cleanStep5Case4 (lines : List Str) (result : Str) : Str :=
  match step5Case4Scan lines [] 0 none with
  | (some s, fde) =>
    if s = 0 then pyStrip (joinNl (lines.take (fde.getD lines.length))) else result
  | (none, _) => result

/-- Case 5 of step 5 of `_clean_completion`: a partial completion followed by
several definitions collapses to its first line. -/
def cleanStep5Case5 (lines : List Str) (firstLine : Str) (result : Str) : Str :=
  if (lines.filter (fun l => isSubstr "def ".data (pyStrip l))).length > 1 &&
      firstLine ≠ [] && !("def ".data.isPrefixOf firstLine) then
    if ":".data.isSuffixOf firstLine || isSubstr "(".data firstLine then lines.headD []
    else result
  else result

/-- Step 5 of `_clean_completion`: call-versus-definition disambiguation.
Cases 1 and 2 are an `if`/`elif` pair; cases 3, 4 and 5 then run in sequence
on the same line list, each overwriting `result` when its guard holds. -/
def cleanStep5 (result : Str) : Str :=
  let lines := splitNl result
  if lines.length > 1 then
    let firstLine := pyStrip (lines.headD [])
    let r1 :=
      if "def ".data.isPrefixOf firstLine then cleanStep5Case1 lines firstLine result
      else if ":".data.isSuffixOf firstLine && !(isSubstr "def ".data firstLine) &&
          isSubstr "(".data firstLine then
        cleanStep5Case2 lines firstLine result
      else result
    cleanStep5Case5 lines firstLine
      (cleanStep5Case4 lines (cleanStep5Case3 lines firstLine r1))
  else result

/-- `AIClient._clean_completion`'s cleanup body (ai_client.py:728-989), the
part reached when `mode == "completion"`. -/
def clean_body (response : Str) : Str :=
  let text := cleanStep1 (pyStrip response)
  let result := cleanStep2 text
  let result := if result ≠ [] then cleanStep3 result else result
  let result := if result ≠ [] then cleanStep4 result else result
  let result := if result ≠ [] then cleanStep5 result else result
  if result ≠ [] then pyRstrip result else pyStrip text

/-- `AIClient._clean_completion(response, mode)` (ai_client.py:720-989): the
guard `if mode != "completion": return response` followed by the cleanup. -/
def clean_completion (response : Str) (mode : String) : Str :=
  if mode = "completion" then clean_body response else response

/-!
## `_should_trigger` (src/thonnycontrib/ai_completion/main.py, lines 674-717)
-/

/-- `MIN_PREFIX_LENGTH` (main.py:53). -/
def MIN_PREFIX_LENGTH : Nat := 2

/-- The keyword starts of the trigger heuristic (main.py:685-688). -/
def triggerKeywords : List Str :=
  ["def ", "class ", "for ", "while ", "if ", "elif ", "with ",
    "import ", "from ", "return ", "print(", "self.", "try:",
    "except", "finally:", "else:", "async ", "await ", "lambda ",
    "yield ", "raise ", "assert ", "global ", "nonlocal "].map String.data

/-- The trigger ending characters (main.py:693-694). -/
def triggerEndings : Str :=
  ['=', '(', '[', '\x7b', ',', ':', '.', '+', '-', '*', '/',
    '>', '<', '&', '|', '%', '@', '!', '~']

/-- Condition (a) of `_should_trigger`: the stripped line starts with a
recognised keyword. -/
def trigCondKeyword (stripped : Str) : Bool := triggerKeywords.any (·.isPrefixOf stripped)

/-- Condition (b) of `_should_trigger`: the rstripped line ends with a trigger
character (Python `line.rstrip().endswith(trigger_endings)`). -/
def trigCondEnding (line : Str) : Bool :=
  match (pyRstrip line).getLast? with
  | some c => triggerEndings.contains c
  | none => false

/-- Condition (c) of `_should_trigger`: Python
`'=' in stripped and not stripped.startswith('#')`. -/
def trigCondAssign (stripped : Str) : Bool :=
  isSubstr "=".data stripped && !("#".data.isPrefixOf stripped)

/-- Condition (d) of `_should_trigger`: Python
`'(' in stripped and not stripped.endswith(')')`. -/
def trigCondParen (stripped : Str) : Bool :=
  isSubstr "(".data stripped && !(")".data.isSuffixOf stripped)

/-- Condition (e) of `_should_trigger`: minimum length reached and the stripped
line ends alphanumerically, or the raw line ends with a space. -/
def trigCondLength (line stripped : Str) : Bool :=
  stripped.length ≥ MIN_PREFIX_LENGTH &&
    ((stripped ≠ [] && (match stripped.getLast? with
        | some c => c.isAlphanum
        | none => false)) ||
      " ".data.isSuffixOf line)

/-- `_should_trigger` (main.py:674-717) on the current line up to the cursor. -/
def should_trigger (line : Str) : Bool :=
  let stripped := pyStrip line
  if stripped = [] then false
  else if trigCondKeyword stripped then true
  else if trigCondEnding line then true
  else if trigCondAssign stripped then true
  else if trigCondParen stripped then true
  else if trigCondLength line stripped then true
  else false

/-- Modelled from the spec: "an open unmatched `(` exists" on the line —
scanning left to right, some `(` is never closed by a later `)`. -/
def hasUnmatchedOpenParen (line : Str) : Bool :=
  (line.foldl (fun opens c =>
    if c = '(' then opens + 1
    else if c = ')' then opens - 1
    else opens) 0) > 0

/-!
## `_remove_boundary_overlap` (src/thonnycontrib/ai_completion/main.py, lines 505-573)
-/

/-- The descending overlap loop of `_remove_boundary_overlap`: Python
`for i in range(min(len(suggestion), len(boundary_after)), 0, -1)`, trimming
the longest suffix of the suggestion that equals a prefix of `boundary_after`. -/
def boundaryAfterLoop : Nat → Str → Str → Str
  | 0, s, _ => s
  | i + 1, s, ba =>
    if s.drop (s.length - (i + 1)) == ba.take (i + 1) then s.take (s.length - (i + 1))
    else boundaryAfterLoop i s ba

/-- The final guard of `_remove_boundary_overlap` (main.py:566-573): strip the
processed suggestion and fall back to the stripped original when it emptied. -/
def keepOriginalGuard (original s2 : Str) : Str :=
  let s3 := pyStrip s2
  if s3 = [] && pyStrip original ≠ [] then pyStrip original else s3

/-- `_remove_boundary_overlap(suggestion, boundary_before, boundary_after)`
(main.py:505-573).  The first `for` loop over `boundary_before` in the source
is dead code (its body is `pass`); the effective steps are the `startswith`
removal, the `endswith` removal, the descending overlap loop, the final
`strip`, and the keep-original guard. -/
def remove_boundary_overlap (suggestion bb ba : Str) : Str :=
  if suggestion = [] then suggestion
  else
    let s1 := if bb.isPrefixOf suggestion && bb.length > 0 then suggestion.drop bb.length
      else suggestion
    let s2 :=
      if ba ≠ [] && s1 ≠ [] then
        let s := if ba.isSuffixOf s1 && ba.length > 0 then s1.take (s1.length - ba.length)
          else s1
        boundaryAfterLoop (min s.length ba.length) s ba
      else s1
    keepOriginalGuard suggestion s2

/-!
## `ContextExtractor.extract_context`
(src/thonnycontrib/ai_completion/completion_handler.py, lines 54-138)
-/

/-- `CONTEXT_LINES_BEFORE` (completion_handler.py:19). -/
def CONTEXT_LINES_BEFORE : Nat := 50

/-- `CONTEXT_LINES_AFTER` (completion_handler.py:20). -/
def CONTEXT_LINES_AFTER : Nat := 10

/-- `MAX_CONTEXT_CHARS` (completion_handler.py:21). -/
def MAX_CONTEXT_CHARS : Nat := 4000

/-- Python `full_text.splitlines(keepends=True)` for newline-delimited text. -/
def splitKeepNl : Str → List Str
  | [] => []
  | c :: t =>
    if c == '\n' then ['\n'] :: splitKeepNl t
    else
      match splitKeepNl t with
      | [] => [[c]]
      | l :: ls => (c :: l) :: ls

/-- `start_line = max(1, line - CONTEXT_LINES_BEFORE)`. -/
def ctxStartLine (line : Nat) : Nat := max 1 (line - CONTEXT_LINES_BEFORE)

/-- `end_line = min(total_lines, line + CONTEXT_LINES_AFTER)`. -/
def ctxEndLine (totalLines line : Nat) : Nat := min totalLines (line + CONTEXT_LINES_AFTER)

/-- `context_before_lines = lines[start_line - 1:line - 1]`. -/
def ctxBeforeLines (lines : List Str) (line : Nat) : List Str :=
  (lines.drop (ctxStartLine line - 1)).take ((line - 1) - (ctxStartLine line - 1))

/-- `context_after_lines = lines[line:end_line] if line < len(lines) else []`. -/
def ctxAfterLines (lines : List Str) (line : Nat) : List Str :=
  if line < lines.length then
    (lines.drop line).take (ctxEndLine lines.length line - line)
  else []

/-- `current_line = lines[line - 1] if line <= len(lines) else ""`. -/
def ctxCurrentLine (lines : List Str) (line : Nat) : Str :=
  if line ≤ lines.length then lines.getD (line - 1) [] else []

/-- The untruncated prefix: joined before-lines plus the current line up to the
cursor column. -/
def ctxRawPre (lines : List Str) (line col : Nat) : Str :=
  (ctxBeforeLines lines line).flatten ++
    (let cur := ctxCurrentLine lines line
     if col ≤ cur.length then cur.take col else cur)

/-- The untruncated suffix: the current line after the cursor column plus the
joined after-lines. -/
def ctxRawSuf (lines : List Str) (line col : Nat) : Str :=
  (let cur := ctxCurrentLine lines line
   if col ≤ cur.length then cur.drop col else []) ++
    (ctxAfterLines lines line).flatten

/-- The result fields of `extract_context` needed by the claims. -/
structure CtxResult where
  pre : Str
  suf : Str
  indent : Str
  deriving Repr, DecidableEq

/-- `ContextExtractor._get_line_indent` (completion_handler.py:140-149). -/
def get_line_indent (line : Str) : Str := line.takeWhile (fun c => c == ' ' || c == '\t')

/-- `ContextExtractor.extract_context` (completion_handler.py:54-138), on the
full buffer text and a 1-based line / 0-based column cursor position. -/
def extract_context (fullText : Str) (line col : Nat) : CtxResult :=
  let lines := splitKeepNl fullText
  let rawPre := ctxRawPre lines line col
  let rawSuf := ctxRawSuf lines line col
  let pre := if rawPre.length > MAX_CONTEXT_CHARS / 2
    then rawPre.drop (rawPre.length - MAX_CONTEXT_CHARS / 2) else rawPre
  let suf := if rawSuf.length > MAX_CONTEXT_CHARS / 2
    then rawSuf.take (MAX_CONTEXT_CHARS / 2) else rawSuf
  { pre := pre
    suf := suf
    indent := get_line_indent (let cur := ctxCurrentLine lines line
      if col ≤ cur.length then cur.take col else cur) }

/-!
## `GhostText` (src/thonnycontrib/ai_completion/main.py, lines 66-442)

The Tk text widget is modelled as a character list with absolute positions;
`insert`/`delete` at an index and the left-gravity marks captured by the
source map to list surgery at `Nat` offsets.
-/

/-- Python-slice delete: `widget.delete(i, j)`. -/
def pyDelete (b : Str) (i j : Nat) : Str := b.take i ++ b.drop j

/-- Python-slice insert: `widget.insert(i, t)`. -/
def pyInsert (b : Str) (i : Nat) (t : Str) : Str := b.take i ++ t ++ b.drop i

/-- Python slice `b[i:j]`. -/
def pySlice (b : Str) (i j : Nat) : Str := (b.take j).drop i

/-- The `GhostText` instance state together with its widget's buffer. -/
structure GT where
  buffer : Str
  cursor : Nat
  active : Bool
  ghost_text : Str
  replacement_mode : Bool
  original_text : Str
  ghost_start : Nat
  ghost_end : Nat
  deriving Repr, DecidableEq

/-- A freshly set-up `GhostText` over a buffer with the cursor at `cur`. -/
def initGT (buf : Str) (cur : Nat) : GT :=
  { buffer := buf
    cursor := cur
    active := false
    ghost_text := []
    replacement_mode := false
    original_text := []
    ghost_start := 0
    ghost_end := 0 }

/-- `GhostText._clear` (main.py:414-442): physically delete the marked span
and, in replacement mode, reinsert the original text at the start mark. -/
def clearGT (g : GT) : GT :=
  if g.active = false ∧ g.ghost_text = [] then g
  else
    let buf :=
      if g.ghost_start < g.ghost_end then
        let b1 := pyDelete g.buffer g.ghost_start g.ghost_end
        if g.replacement_mode ∧ g.original_text ≠ [] then
          pyInsert b1 g.ghost_start g.original_text
        else b1
      else g.buffer
    { g with
      buffer := buf
      active := false
      ghost_text := []
      replacement_mode := false
      original_text := [] }

/-- `GhostText.show` (main.py:180-230): clear any old suggestion, reject blank
text, remove the overlap with the code after the cursor, insert at the cursor
with the ghost marks, keep the visible cursor at the start.  Success is
reflected by `active` in the resulting state. -/
def showGT (g : GT) (text sfx : Str) : GT :=
  let g := clearGT g
  if pyStrip text = [] then g
  else
    let text2 := if sfx ≠ [] then remove_overlap text sfx else text
    if sfx ≠ [] ∧ pyStrip text2 = [] then g
    else
      { g with
        buffer := pyInsert g.buffer g.cursor text2
        active := true
        ghost_text := text2
        ghost_start := g.cursor
        ghost_end := g.cursor + text2.length }

/-- `GhostText.show_replacement` (main.py:281-335): delete the selected span,
insert the replacement with the ghost marks, and remember the original text
for restoration on dismiss. -/
def show_replacement (g : GT) (text : Str) (selStart selEnd : Nat) (orig : Str) : GT :=
  let g := clearGT g
  if pyStrip text = [] then g
  else
    { g with
      buffer := pyInsert (pyDelete g.buffer selStart selEnd) selStart text
      active := true
      ghost_text := text
      replacement_mode := true
      original_text := orig
      ghost_start := selStart
      ghost_end := selStart + text.length
      cursor := selStart }

/-!
## The request coordinator (src/thonnycontrib/ai_completion/main.py, lines 445-980)
-/

/-- `REQUEST_STATE_IDLE` / `REQUEST_STATE_REQUESTING` / `REQUEST_STATE_SHOWING`
(main.py:56-58). -/
inductive RequestState
  | idle
  | requesting
  | showing
  deriving Repr, DecidableEq

/-- The module-level coordinator state: `_request_state`, `_last_request_id`
and the active editor's `GhostText` (main.py:446-452). -/
structure Coord where
  request_state : RequestState
  last_request_id : Nat
  ghost : GT
  deriving Repr, DecidableEq

/-- The gating section of `do_completion` under `_request_lock`
(main.py:731-745): a request in progress swallows the call (`none`); otherwise
a Showing suggestion is cleared, the state moves to Requesting and the request
counter is incremented, its new value captured as the request id. -/
def do_completion_gate (c : Coord) : Option (Coord × Nat) :=
  if c.request_state = .requesting then none
  else
    let g := if c.request_state = .showing ∧ c.ghost.active then clearGT c.ghost else c.ghost
    some ({ request_state := .requesting
            last_request_id := c.last_request_id + 1
            ghost := g }, c.last_request_id + 1)

/-- The result dictionary returned by `AIClient.request`
(ai_client.py:58-100): `success`, `data.raw_analysis`, `message`. -/
structure ResultDict where
  success : Bool
  raw_analysis : Str
  message : Str
  deriving Repr, DecidableEq

/-- The body of `request_thread` after `client.request` returns
(main.py:817-839): under the lock, a response whose captured id differs from
the latest issued id is discarded (`none` scheduled, nothing touched); a fresh
response is handed to `_handle_result`, and the `finally` block resets a still
Requesting state to Idle for the fresh request only. -/
def request_thread_post (c : Coord) (captured : Nat) (result : ResultDict) :
    Coord × Option ResultDict :=
  if captured = c.last_request_id then
    let c' := if c.request_state = .requesting then { c with request_state := .idle } else c
    (c', some result)
  else (c, none)

/-- The user-visible effect of the result/error handlers: a transient status
message, the error dialog flow of `_handle_error`, or a shown suggestion. -/
inductive UIAction
  | statusMsg (m : Str)
  | errorFlow (display : Str) (settingsHint : Bool)
  | suggestionShown
  deriving Repr, DecidableEq

/-- Whether the effect is a status message or dialog (not a shown suggestion,
and in the embedding no exception escapes the handlers). -/
def UIAction.isStatusOrDialog : UIAction → Bool
  | .suggestionShown => false
  | _ => true

/-- The error classification chain of `_handle_error` (main.py:914-941):
the friendly display text and the open-settings hint. -/
def classify_error (msg : Str) : Str × Bool :=
  let lower := strToLower msg
  if isSubstr "API".data msg &&
      (isSubstr "密钥".data msg || isSubstr "key".data lower || isSubstr "401".data msg) then
    ("❌ API key is invalid or not configured".data, true)
  else if isSubstr "endpoint".data lower || isSubstr "连接".data msg ||
      isSubstr "connect".data lower then
    ("❌ Failed to connect to the API endpoint".data, true)
  else if isSubstr "timeout".data lower || isSubstr "超时".data msg then
    ("❌ Request timed out, please try again later".data, false)
  else if isSubstr "429".data msg then
    ("❌ Requests are too frequent, please try again later.".data, false)
  else if isSubstr "network".data lower || isSubstr "connection".data lower then
    ("Network connection failed".data, false)
  else if isSubstr "refused".data lower then
    ("Connection refused by server".data, false)
  else if isSubstr "404".data msg then
    ("API endpoint not found (404)".data, true)
  else if isSubstr "500".data msg || isSubstr "502".data msg || isSubstr "503".data msg then
    ("Server error, please try again later".data, false)
  else if isSubstr "配置".data msg || isSubstr "config".data lower then
    ("❌ API configuration error".data, true)
  else if msg.length > 50 then ("❌ ".data ++ msg.take 50, false)
  else ("❌ ".data ++ msg, false)

/-- `_handle_error` (main.py:902-980): reset the request state to Idle and
surface the classified message as a status line plus dialog. -/
def handle_error (c : Coord) (msg : Str) : Coord × UIAction :=
  ({ c with request_state := .idle },
    .errorFlow (classify_error msg).1 (classify_error msg).2)

/-- `_handle_result` (main.py:850-899): route failures to `_handle_error`,
empty suggestions to an Idle status message, and otherwise show the suggestion
(after boundary-overlap removal in fix mode), moving to Showing exactly when
the ghost accepted it. -/
def handle_result (c : Coord) (result : ResultDict) (sfx : Str) (mode : String)
    (hasSel : Bool) (selStart selEnd : Nat) (origSel bb ba : Str) : Coord × UIAction :=
  if result.success = false then handle_error c result.message
  else
    let suggestion := result.raw_analysis
    if pyStrip suggestion ≠ [] then
      let suggestion := if mode = "fix" then remove_boundary_overlap suggestion bb ba
        else suggestion
      if mode = "fix" ∧ hasSel then
        let g' := show_replacement c.ghost suggestion selStart selEnd origSel
        if g'.active then ({ c with ghost := g', request_state := .showing },
          .suggestionShown)
        else ({ c with ghost := g', request_state := .idle }, .statusMsg [])
      else
        let g' := showGT c.ghost suggestion sfx
        if g'.active then ({ c with ghost := g', request_state := .showing },
          .suggestionShown)
        else ({ c with ghost := g', request_state := .idle }, .statusMsg [])
    else
      ({ c with request_state := .idle }, .statusMsg "💭 No suggestion available".data)

/-!
## `AIClient._make_api_request` outcome mapping
(src/thonnycontrib/ai_completion/ai_client.py, lines 415-718)

The HTTP call itself is abstracted as a `NetOutcome` input; the mapping of
each outcome to the result dictionary follows the source's branches.
-/

/-- The possible outcomes of the `requests.post` call. -/
inductive NetOutcome
  | timeout
  | reqError (msg : Str)
  | response (content : Str)
  deriving Repr, DecidableEq

/-- `AIClient._make_api_request` (ai_client.py:415-718) as a function of the
configured-key flag, the request mode and the network outcome: a missing key
fails without a network call; timeouts and request errors map to failure
messages; empty content raises `ValueError("Empty response from AI")`, caught
as a generic failure; non-empty content is cleaned and returned as success. -/
def make_api_request (hasKey : Bool) (mode : String) (net : NetOutcome) : ResultDict :=
  if hasKey = false then
    { success := false
      raw_analysis := []
      message := "API 密钥未配置，请在设置中配置 API Key".data }
  else
    match net with
    | .timeout =>
      { success := false
        raw_analysis := []
        message := "Request timed out. Please try again.".data }
    | .reqError m =>
      { success := false, raw_analysis := [], message := "API error: ".data ++ m }
    | .response content =>
      if content = [] then
        { success := false
          raw_analysis := []
          message := "Error: Empty response from AI".data }
      else
        { success := true, raw_analysis := clean_completion content mode, message := [] }

/-!
## Concrete example values used by witnesses and counterexamples
-/

/-- A coordinator showing a suggestion from request 5. -/
def coordShowingEx : Coord :=
  { request_state := .showing
    last_request_id := 5
    ghost := { initGT "print(1)".data 3 with active := true, ghost_text := "xyz".data } }

/-- A coordinator with a request in flight. -/
def coordRequestingEx : Coord :=
  { request_state := .requesting
    last_request_id := 7
    ghost := initGT "abc".data 1 }

/-- A successful result value. -/
def resultOkEx : ResultDict := { success := true, raw_analysis := "y = 2".data, message := [] }

/-- A failed result value. -/
def resultFailEx : ResultDict :=
  { success := false, raw_analysis := [], message := "Request timed out. Please try again.".data }

/-- C3's raw response: two identical `def foo` blocks. -/
def dupDefRaw : Str := "def foo(x):\n    return x\ndef foo(x):\n    return x".data

/-- The first full `def foo` definition alone (what claim C3 predicts). -/
def dupDefFirstOnly : Str := "def foo(x):\n    return x".data

/-- What the cleanup actually returns on `dupDefRaw`. -/
def dupDefCleaned : Str := "def foo(x):\n    return x\n    return x".data

/-- C4's suggestion: its middle line equals the first suffix line. -/
def overlapSuggEx : Str := "a\nX\nb".data

/-- C4's suffix. -/
def overlapSuffixEx : Str := "X\nrest".data

/-- C5's raw response: a Markdown-fenced snippet the cleanup would rewrite. -/
def fencedRawEx : Str := "```python\nx = 1\n```".data

/-!
## Helper lemmas
-/

theorem pyStrip_nil : pyStrip [] = [] := rfl

theorem ne_nil_of_pyStrip_ne_nil {s : Str} (h : pyStrip s ≠ []) : s ≠ [] := by
  intro hs
  exact h (hs ▸ pyStrip_nil)

theorem length_pos_of_pyStrip_ne_nil {s : Str} (h : pyStrip s ≠ []) : 0 < s.length :=
  List.length_pos.mpr (ne_nil_of_pyStrip_ne_nil h)

theorem overlapStrat1_eq_none {s sc : Str} :
    ∀ m : Nat, (∀ k, k < m → ((sc.take (k + 1)).isSuffixOf s) = false) →
      overlapStrat1 m s sc = none := by
  intro m
  induction m with
  | zero => intro _; rfl
  | succ k ih =>
    intro h
    unfold overlapStrat1
    rw [h k (Nat.lt_succ_self k)]
    exact ih fun j hj => h j (Nat.lt_succ_of_lt hj)

theorem overlapStrat2Find_eq_none {sl : List Str} {fs : Str} :
    ∀ n : Nat, (∀ i, i < n → (pyStrip (sl.getD i []) == fs) = false) →
      overlapStrat2Find sl fs n = none := by
  intro n
  induction n with
  | zero => intro _; rfl
  | succ k ih =>
    intro h
    unfold overlapStrat2Find
    rw [h k (Nat.lt_succ_self k)]
    exact ih fun j hj => h j (Nat.lt_succ_of_lt hj)

/-!
## Claim theorems
-/

/-- C1: a response whose captured request id no longer equals the latest
issued id is discarded by the response handler: the coordinator state
(request state, request counter, and any currently-showing suggestion) is
left untouched and no result handling is scheduled. -/
theorem stale_response_is_discarded (c : Coord) (captured : Nat) (result : ResultDict)
    (h : captured ≠ c.last_request_id) :
    request_thread_post c captured result = (c, none) := by
  unfold request_thread_post
  simp [h]

/-- Witness for C1: a response captured for request 3 arriving while request 5
is the latest, with a suggestion from request 5 showing, is a no-op. -/
theorem stale_response_is_discarded_witness :
    request_thread_post coordShowingEx 3 resultOkEx = (coordShowingEx, none) :=
  stale_response_is_discarded coordShowingEx 3 resultOkEx (by decide)

/-- C2: calling the completion entry point while the request state is
Requesting neither changes the state nor increments the counter nor starts a
network call; and whenever a request does start, the previous state was Idle
or Showing, the counter was incremented by exactly one, and a Showing
suggestion was cleared first. -/
theorem requesting_state_blocks_new_request (c : Coord) :
    (c.request_state = .requesting → do_completion_gate c = none) ∧
    (∀ c' rid, do_completion_gate c = some (c', rid) →
      (c.request_state = .idle ∨ c.request_state = .showing) ∧
      c'.request_state = .requesting ∧
      c'.last_request_id = c.last_request_id + 1 ∧ rid = c.last_request_id + 1 ∧
      (c.request_state = .showing → c.ghost.active = true → c'.ghost.active = false)) := by
  constructor
  · intro h
    unfold do_completion_gate
    simp [h]
  · intro c' rid hsome
    unfold do_completion_gate at hsome
    by_cases hreq : c.request_state = .requesting
    · simp [hreq] at hsome
    · simp [hreq] at hsome
      cases hstate : c.request_state with
      | requesting => exact absurd hstate hreq
      | idle =>
        refine ⟨Or.inl rfl, ?_⟩
        simp [hstate] at hsome
        simp [← hsome.1, hsome.2]
      | showing =>
        refine ⟨Or.inr rfl, ?_⟩
        simp [hstate] at hsome
        by_cases hact : c.ghost.active = true
        · simp [hact] at hsome
          refine ⟨by simp [← hsome.1], by simp [← hsome.1], hsome.2.symm, ?_⟩
          intro _ _
          rw [← hsome.1]
          simp [clearGT, hact]
        · simp [hact] at hsome
          refine ⟨by simp [← hsome.1], by simp [← hsome.1], hsome.2.symm, ?_⟩
          intro _ hactt
          exact absurd hactt hact

/-- Witness for C2: with a request in flight the gate swallows the call. -/
theorem requesting_state_blocks_new_request_witness :
    do_completion_gate coordRequestingEx = none :=
  (requesting_state_blocks_new_request coordRequestingEx).1 (by decide)

/-- Counterexample for C3: on a response made of two identical `def foo`
blocks, the cleanup does not keep only the first full definition — the
duplicate's body line survives, so the output is not the single definition
the claim predicts. -/
theorem clean_completion_keeps_duplicate_body :
    clean_completion dupDefRaw "completion" = dupDefCleaned ∧
    dupDefCleaned ≠ dupDefFirstOnly ∧
    isSubstr "    return x\n    return x".data dupDefCleaned = true := by
  refine ⟨by decide, by decide, by decide⟩

/-- C3 (amended): on the two-identical-`def foo`-blocks response, the cleanup
returns text containing exactly one occurrence of `def foo`: the repeated
header line is dropped, but the repeated definition's body lines are retained
after the first definition. -/
theorem clean_completion_single_def_header :
    clean_completion dupDefRaw "completion" = dupDefCleaned ∧
    countOcc "def foo".data (clean_completion dupDefRaw "completion") = 1 := by
  refine ⟨by decide, by decide⟩

/-- Counterexample for C5: for a Markdown-fenced response that the cleanup
transformation would rewrite, fix mode returns the raw text unchanged, so the
cleanup is not applied when the mode is `fix`. -/
theorem clean_completion_skips_fix_mode :
    clean_completion fencedRawEx "fix" = fencedRawEx ∧
    clean_completion fencedRawEx "completion" ≠ fencedRawEx := by
  refine ⟨by decide, by decide⟩

/-- C5 (amended): the cleanup transformation is applied exactly when the mode
is `completion`; for `fix` and every other mode the raw response is returned
unchanged. -/
theorem clean_completion_only_completion_mode (response : Str) (mode : String)
    (h : mode ≠ "completion") : clean_completion response mode = response := by
  unfold clean_completion
  simp [h]

/-- Witness for C5 (amended): mode `fix` returns the raw response. -/
theorem clean_completion_only_completion_mode_witness :
    clean_completion fencedRawEx "fix" = fencedRawEx :=
  clean_completion_only_completion_mode fencedRawEx "fix" (by decide)

/-- C10: when the suggestion's stripped form is non-empty, the fix-mode
boundary-overlap removal never returns the empty string: if trimming the
boundary overlaps would leave only whitespace, the stripped original
suggestion is returned instead. -/
theorem boundary_overlap_keeps_nonempty (s bb ba : Str) (h : pyStrip s ≠ []) :
    remove_boundary_overlap s bb ba ≠ [] := by
  have hs : s ≠ [] := ne_nil_of_pyStrip_ne_nil h
  have hguard : ∀ s2 : Str, keepOriginalGuard s s2 ≠ [] := by
    intro s2
    unfold keepOriginalGuard
    by_cases h3 : pyStrip s2 = []
    · simp [h3, h]
    · simp [h3]
  unfold remove_boundary_overlap
  simp only [hs, if_false]
  exact hguard _

/-- Witness for C10: a suggestion that the boundary trimming would empty out
comes back as its stripped original, not as the empty string. -/
theorem boundary_overlap_keeps_nonempty_witness :
    remove_boundary_overlap "  )  ".data [] ")".data ≠ [] :=
  boundary_overlap_keeps_nonempty "  )  ".data [] ")".data (by decide)

/-- Helper: `getD` at an in-range index is a member of the list. -/
theorem getD_mem_of_lt {l : List Str} {i : Nat} (h : i < l.length) : l.getD i [] ∈ l := by
  rw [List.getD_eq_getElem l [] h]
  exact List.getElem_mem h

/-- Helper: strategy 2 of `_remove_overlap` leaves the suggestion unchanged
when no suggestion line strips to the first suffix line. -/
theorem overlapStrat2_eq_self (s sc : Str)
    (h2 : ∀ l ∈ splitNl s, pyStrip l ≠ pyStrip ((splitNl sc).headD [])) :
    overlapStrat2 s sc = s := by
  unfold overlapStrat2
  cases hsp : splitNl sc with
  | nil => rfl
  | cons f0 rest =>
    by_cases hf0 : pyStrip f0 = []
    · simp [hf0]
    · have hfind : overlapStrat2Find (splitNl s) (pyStrip f0) (splitNl s).length = none := by
        apply overlapStrat2Find_eq_none
        intro i hi
        have hmem : (splitNl s).getD i [] ∈ splitNl s := getD_mem_of_lt hi
        have hne := h2 _ hmem
        rw [hsp] at hne
        simp only [List.headD_cons] at hne
        exact beq_eq_false_iff_ne.mpr hne
      simp [hf0, hfind]

/-- Counterexample for C4: a suggestion, empty prefix and a suffix with no
affix overlap at all (no nonempty suffix of the prefix and no nonempty prefix
of the suffix matches any affix of the suggestion), on which the
overlap-removal function still rewrites the suggestion — its middle line
equals the suffix's first line, which triggers the line-based trimming. -/
theorem remove_overlap_changes_no_affix_input :
    noAffixOverlap overlapSuggEx [] overlapSuffixEx = true ∧
    remove_overlap overlapSuggEx overlapSuffixEx ≠ overlapSuggEx := by
  refine ⟨by decide, by decide⟩

/-- C4 (amended): the overlap-removal function (which takes no prefix
parameter) returns the suggestion unchanged when no nonempty prefix of the
cleaned suffix (first 500 characters, left-stripped) is a suffix of the
suggestion and no line of the suggestion strips to the cleaned suffix's first
stripped line; applying it again on such input keeps the result fixed. -/
theorem remove_overlap_id_without_overlap (s sfx : Str)
    (h1 : ∀ k, k < min s.length (pyLstrip (sfx.take 500)).length →
      (((pyLstrip (sfx.take 500)).take (k + 1)).isSuffixOf s) = false)
    (h2 : ∀ l ∈ splitNl s,
      pyStrip l ≠ pyStrip ((splitNl (pyLstrip (sfx.take 500))).headD [])) :
    remove_overlap s sfx = s ∧
    remove_overlap (remove_overlap s sfx) sfx = remove_overlap s sfx := by
  have key : remove_overlap s sfx = s := by
    unfold remove_overlap
    by_cases h0 : s = []
    · simp [h0]
    · by_cases hsfx : sfx = []
      · simp [hsfx]
      · simp only [h0, hsfx, decide_False, Bool.or_self, Bool.false_eq_true, if_false]
        by_cases hsc : pyLstrip (sfx.take 500) = []
        · simp [hsc]
        · have hs1 : overlapStrat1 (min s.length (pyLstrip (sfx.take 500)).length) s
              (pyLstrip (sfx.take 500)) = none :=
            overlapStrat1_eq_none _ fun k hk => h1 k hk
          simp only [hsc, if_false]
          rw [hs1]
          exact overlapStrat2_eq_self s _ h2
  exact ⟨key, by rw [key, key]⟩

/-- Witness for C4 (amended): a suggestion sharing nothing with the suffix is
returned unchanged. -/
theorem remove_overlap_id_without_overlap_witness :
    remove_overlap "abc".data "xyz".data = "abc".data :=
  (remove_overlap_id_without_overlap "abc".data "xyz".data (by decide) (by decide)).1

/-- Helper: reassembling a buffer from the parts around a selection. -/
theorem slice_recomb (buf : Str) (i j : Nat) (h1 : i ≤ j) (_h2 : j ≤ buf.length) :
    buf.take i ++ pySlice buf i j ++ buf.drop j = buf := by
  unfold pySlice
  have hti : buf.take i = (buf.take j).take i := by
    rw [List.take_take, Nat.min_eq_left h1]
  rw [hti, List.take_append_drop, List.take_append_drop]

/-- Helper: deleting the span just inserted at position `A.length`. -/
theorem pyDelete_inserted (A t C : Str) :
    pyDelete (A ++ t ++ C) A.length (A.length + t.length) = A ++ C := by
  unfold pyDelete
  have h1 : (A ++ t ++ C).take A.length = A := by
    rw [List.append_assoc]
    exact List.take_left A (t ++ C)
  have h2 : (A ++ t ++ C).drop (A.length + t.length) = C := by
    apply List.drop_left'
    rw [List.length_append]
  rw [h1, h2]

/-- Helper: inserting at the junction of two buffer parts. -/
theorem pyInsert_at (A C t : Str) : pyInsert (A ++ C) A.length t = A ++ t ++ C := by
  unfold pyInsert
  rw [List.take_left, List.drop_left, List.append_assoc]

/-- C6: dismissing a replacement-mode (fix) suggestion deletes the inserted
ghost span and reinserts the exact original replaced text at the same
position, so the buffer is byte-for-byte what it was before the replacement
was shown. -/
theorem dismiss_restores_original_text (buf text : Str) (selStart selEnd cur : Nat)
    (h1 : selStart ≤ selEnd) (h2 : selEnd ≤ buf.length) (h3 : pyStrip text ≠ []) :
    (clearGT (show_replacement (initGT buf cur) text selStart selEnd
      (pySlice buf selStart selEnd))).buffer = buf ∧
    (clearGT (show_replacement (initGT buf cur) text selStart selEnd
      (pySlice buf selStart selEnd))).active = false := by
  have htext : text ≠ [] := ne_nil_of_pyStrip_ne_nil h3
  have hlen : 0 < text.length := List.length_pos.mpr htext
  have hA : (buf.take selStart).length = selStart := by
    rw [List.length_take]
    omega
  have hdel : pyDelete buf selStart selEnd = buf.take selStart ++ buf.drop selEnd := rfl
  have hg1 : show_replacement (initGT buf cur) text selStart selEnd
      (pySlice buf selStart selEnd) =
      { buffer := buf.take selStart ++ text ++ buf.drop selEnd
        cursor := selStart
        active := true
        ghost_text := text
        replacement_mode := true
        original_text := pySlice buf selStart selEnd
        ghost_start := selStart
        ghost_end := selStart + text.length } := by
    unfold show_replacement
    have hclear0 : clearGT (initGT buf cur) = initGT buf cur := by
      unfold clearGT initGT
      simp
    rw [hclear0]
    simp only [h3, initGT, if_false]
    have hbuf : pyInsert (pyDelete buf selStart selEnd) selStart text =
        buf.take selStart ++ text ++ buf.drop selEnd := by
      have hins := pyInsert_at (buf.take selStart) (buf.drop selEnd) text
      rw [hA] at hins
      rw [hdel]
      exact hins
    simp [hbuf]
  rw [hg1]
  unfold clearGT
  rw [if_neg (by simp)]
  have hlt : selStart < selStart + text.length := by omega
  refine ⟨?_, rfl⟩
  show (if selStart < selStart + text.length then
      (if (true : Bool) = true ∧ pySlice buf selStart selEnd ≠ [] then
        pyInsert (pyDelete (buf.take selStart ++ text ++ buf.drop selEnd) selStart
          (selStart + text.length)) selStart (pySlice buf selStart selEnd)
      else pyDelete (buf.take selStart ++ text ++ buf.drop selEnd) selStart
        (selStart + text.length))
    else buf.take selStart ++ text ++ buf.drop selEnd) = buf
  rw [if_pos hlt]
  have hdel2 : pyDelete (buf.take selStart ++ text ++ buf.drop selEnd) selStart
      (selStart + text.length) = buf.take selStart ++ buf.drop selEnd := by
    have h := pyDelete_inserted (buf.take selStart) text (buf.drop selEnd)
    rw [hA] at h
    exact h
  by_cases horig : pySlice buf selStart selEnd = []
  · rw [if_neg (by simp [horig]), hdel2]
    have h := slice_recomb buf selStart selEnd h1 h2
    rw [horig] at h
    simpa using h
  · rw [if_pos ⟨rfl, horig⟩, hdel2]
    have hins := pyInsert_at (buf.take selStart) (buf.drop selEnd)
      (pySlice buf selStart selEnd)
    rw [hA] at hins
    rw [hins]
    exact slice_recomb buf selStart selEnd h1 h2

/-- Witness for C6: replacing `llo w` inside `hello world` by `XY` and
dismissing restores `hello world` exactly. -/
theorem dismiss_restores_original_text_witness :
    (clearGT (show_replacement (initGT "hello world".data 0) "XY".data 2 7
      (pySlice "hello world".data 2 7))).buffer = "hello world".data :=
  (dismiss_restores_original_text "hello world".data "XY".data 2 7 0
    (by decide) (by decide) (by decide)).1

/-- C7: the context extractor takes at most 50 lines before and 10 lines after
the cursor, caps each side at half of the 4000-character limit, truncates the
prefix from its start and the suffix from its end (so both sides stay
suffix/prefix of the untruncated windows — the content nearest the cursor),
and leaves windows under the cap untouched. -/
theorem extract_context_window_bounds (fullText : Str) (line col : Nat) :
    (extract_context fullText line col).pre.length ≤ MAX_CONTEXT_CHARS / 2 ∧
    (extract_context fullText line col).suf.length ≤ MAX_CONTEXT_CHARS / 2 ∧
    (extract_context fullText line col).pre <:+ ctxRawPre (splitKeepNl fullText) line col ∧
    (extract_context fullText line col).suf <+: ctxRawSuf (splitKeepNl fullText) line col ∧
    (ctxBeforeLines (splitKeepNl fullText) line).length ≤ CONTEXT_LINES_BEFORE ∧
    (ctxAfterLines (splitKeepNl fullText) line).length ≤ CONTEXT_LINES_AFTER ∧
    ((ctxRawPre (splitKeepNl fullText) line col).length ≤ MAX_CONTEXT_CHARS / 2 →
      (extract_context fullText line col).pre = ctxRawPre (splitKeepNl fullText) line col) ∧
    ((ctxRawSuf (splitKeepNl fullText) line col).length ≤ MAX_CONTEXT_CHARS / 2 →
      (extract_context fullText line col).suf = ctxRawSuf (splitKeepNl fullText) line col) := by
  have hpre : (extract_context fullText line col).pre =
      (if (ctxRawPre (splitKeepNl fullText) line col).length > MAX_CONTEXT_CHARS / 2
       then (ctxRawPre (splitKeepNl fullText) line col).drop
         ((ctxRawPre (splitKeepNl fullText) line col).length - MAX_CONTEXT_CHARS / 2)
       else ctxRawPre (splitKeepNl fullText) line col) := rfl
  have hsuf : (extract_context fullText line col).suf =
      (if (ctxRawSuf (splitKeepNl fullText) line col).length > MAX_CONTEXT_CHARS / 2
       then (ctxRawSuf (splitKeepNl fullText) line col).take (MAX_CONTEXT_CHARS / 2)
       else ctxRawSuf (splitKeepNl fullText) line col) := rfl
  refine ⟨?_, ?_, ?_, ?_, ?_, ?_, ?_, ?_⟩
  · rw [hpre]
    by_cases h : (ctxRawPre (splitKeepNl fullText) line col).length > MAX_CONTEXT_CHARS / 2
    · rw [if_pos h, List.length_drop]
      omega
    · rw [if_neg h]
      omega
  · rw [hsuf]
    by_cases h : (ctxRawSuf (splitKeepNl fullText) line col).length > MAX_CONTEXT_CHARS / 2
    · rw [if_pos h, List.length_take]
      omega
    · rw [if_neg h]
      omega
  · rw [hpre]
    by_cases h : (ctxRawPre (splitKeepNl fullText) line col).length > MAX_CONTEXT_CHARS / 2
    · rw [if_pos h]
      exact List.drop_suffix _ _
    · rw [if_neg h]
  · rw [hsuf]
    by_cases h : (ctxRawSuf (splitKeepNl fullText) line col).length > MAX_CONTEXT_CHARS / 2
    · rw [if_pos h]
      exact List.take_prefix _ _
    · rw [if_neg h]
  · unfold ctxBeforeLines
    rw [List.length_take]
    simp only [ctxStartLine, CONTEXT_LINES_BEFORE]
    omega
  · unfold ctxAfterLines
    by_cases hl : line < (splitKeepNl fullText).length
    · rw [if_pos hl, List.length_take]
      simp only [ctxEndLine, CONTEXT_LINES_AFTER]
      omega
    · rw [if_neg hl]
      simp [CONTEXT_LINES_AFTER]
  · intro h
    rw [hpre, if_neg (by omega)]
  · intro h
    rw [hsuf, if_neg (by omega)]

/-- Witness for C7: a window under the cap is returned untouched. -/
theorem extract_context_window_bounds_witness :
    (extract_context "ab\ncd".data 2 1).pre = ctxRawPre (splitKeepNl "ab\ncd".data) 2 1 :=
  (extract_context_window_bounds "ab\ncd".data 2 1).2.2.2.2.2.2.1 (by decide)

/-- Helper: single-character substring containment is membership. -/
theorem isSubstr_singleton_iff {c : Char} {s : Str} : isSubstr [c] s = true ↔ c ∈ s := by
  induction s with
  | nil => simp [isSubstr]
  | cons h t ih =>
    show (List.isPrefixOf [c] (h :: t) || isSubstr [c] t) = true ↔ c ∈ h :: t
    have hnil : List.isPrefixOf ([] : Str) t = true := by cases t <;> rfl
    have hpre : (List.isPrefixOf [c] (h :: t)) = true ↔ c = h := by
      show ((c == h) && List.isPrefixOf ([] : Str) t) = true ↔ c = h
      rw [hnil, Bool.and_true, beq_iff_eq]
    rw [Bool.or_eq_true, ih, List.mem_cons, hpre]

/-- Helper: a single-character suffix test reads the last element. -/
theorem singleton_isSuffixOf_iff {c : Char} {s : Str} :
    ([c].isSuffixOf s) = true ↔ s.getLast? = some c := by
  rw [List.isSuffixOf_iff_suffix]
  constructor
  · rintro ⟨t, rfl⟩
    simp
  · intro h
    cases hs : s.getLast? with
    | none => rw [hs] at h; cases h
    | some d =>
      rw [hs] at h
      cases h
      obtain ⟨t, rfl⟩ := List.getLast?_eq_some_iff.mp hs
      exact ⟨t, rfl⟩

/-- Counterexample for C8: the line `"((x)"` has an open unmatched `(`, yet
condition (d) does not fire (the stripped line ends with `)`), and the whole
trigger heuristic returns false — so (d) does not trigger exactly on unmatched
open parentheses. -/
theorem paren_condition_misses_unmatched_paren :
    hasUnmatchedOpenParen "((x)".data = true ∧
    trigCondParen (pyStrip "((x)".data) = false ∧
    should_trigger "((x)".data = false := by
  refine ⟨by decide, by decide, by decide⟩

/-- C8 (amended): the trigger heuristic returns false on the blank line
`"   "` and true on `"x = "`; condition (d) fires exactly when the line
contains `(` and does not end with `)` — an approximation of the unmatched-`(`
condition which also fires on balanced lines such as `"f(x) -$"`. -/
theorem trigger_heuristic_behaviour :
    should_trigger "   ".data = false ∧
    should_trigger "x = ".data = true ∧
    (∀ line : Str, trigCondParen line = true ↔
      ('(' ∈ line ∧ line.getLast? ≠ some ')')) ∧
    trigCondParen (pyStrip "f(x) -$".data) = true ∧
    hasUnmatchedOpenParen "f(x) -$".data = false ∧
    should_trigger "f(x) -$".data = true := by
  refine ⟨by decide, by decide, ?_, by decide, by decide, by decide⟩
  intro line
  unfold trigCondParen
  rw [Bool.and_eq_true, Bool.not_eq_true', isSubstr_singleton_iff]
  constructor
  · rintro ⟨hmem, hsuf⟩
    refine ⟨hmem, fun hlast => ?_⟩
    rw [(singleton_isSuffixOf_iff (c := ')')).mpr hlast] at hsuf
    cases hsuf
  · rintro ⟨hmem, hlast⟩
    refine ⟨hmem, ?_⟩
    by_cases hsuf : ([')'].isSuffixOf line) = true
    · exact absurd (singleton_isSuffixOf_iff.mp hsuf) hlast
    · exact Bool.not_eq_true _ ▸ (by simpa using hsuf)

/-- C9: every failure outcome resets the coordinator's request state to Idle
and surfaces as a status message or dialog, never as a shown suggestion or an
escaping exception: the error handler itself (also reached from the request
thread's exception path), any unsuccessful result, an empty or whitespace-only
suggestion, and — on the client side — a missing API key, a timeout, a
request/transport error and an empty response all produce unsuccessful
results. -/
theorem failures_reset_state_to_idle :
    (∀ (c : Coord) (msg : Str), (handle_error c msg).1.request_state = .idle ∧
      (handle_error c msg).2.isStatusOrDialog = true) ∧
    (∀ (c : Coord) (r : ResultDict) (sfx : Str) (mode : String) (hasSel : Bool)
        (selStart selEnd : Nat) (origSel bb ba : Str), r.success = false →
      (handle_result c r sfx mode hasSel selStart selEnd origSel bb ba).1.request_state =
        .idle ∧
      (handle_result c r sfx mode hasSel selStart selEnd origSel bb ba).2.isStatusOrDialog =
        true) ∧
    (∀ (c : Coord) (r : ResultDict) (sfx : Str) (mode : String) (hasSel : Bool)
        (selStart selEnd : Nat) (origSel bb ba : Str),
      pyStrip r.raw_analysis = [] → r.success = true →
      (handle_result c r sfx mode hasSel selStart selEnd origSel bb ba).1.request_state =
        .idle ∧
      (handle_result c r sfx mode hasSel selStart selEnd origSel bb ba).2.isStatusOrDialog =
        true) ∧
    (∀ (mode : String) (net : NetOutcome), (make_api_request false mode net).success = false) ∧
    (∀ (mode : String) (m : Str),
      (make_api_request true mode .timeout).success = false ∧
      (make_api_request true mode (.reqError m)).success = false ∧
      (make_api_request true mode (.response [])).success = false) := by
  refine ⟨?_, ?_, ?_, ?_, ?_⟩
  · intro c msg
    exact ⟨rfl, rfl⟩
  · intro c r sfx mode hasSel selStart selEnd origSel bb ba hfail
    unfold handle_result
    rw [if_pos hfail]
    exact ⟨rfl, rfl⟩
  · intro c r sfx mode hasSel selStart selEnd origSel bb ba hempty hok
    unfold handle_result
    rw [if_neg (by simp [hok]), if_neg (by simp [hempty])]
    exact ⟨rfl, rfl⟩
  · intro mode net
    rfl
  · intro mode m
    exact ⟨rfl, rfl, rfl⟩

/-- Witness for C9: a timed-out result leaves the coordinator Idle with a
dialog, and the timeout outcome itself is an unsuccessful result. -/
theorem failures_reset_state_to_idle_witness :
    (handle_result coordShowingEx resultFailEx [] "completion" false 0 0 [] [] []).1.request_state
      = .idle ∧
    (make_api_request true "completion" .timeout).success = false :=
  ⟨(failures_reset_state_to_idle.2.1 coordShowingEx resultFailEx [] "completion" false 0 0
      [] [] [] (by decide)).1,
    (failures_reset_state_to_idle.2.2.2.2 "completion" []).1⟩
